import Mathlib

/-!
Shallow embedding of the mpu6886 driver (src/lib.rs, src/device.rs,
src/config.rs).  Bytes are `Nat`, signed words are `Int`, and the `f32`
sensitivities and converted sensor values are modelled as exact rationals
(all formulas in the driver are field operations on decimal constants).
The i2c bus capability is modelled as a register file together with
per-register failure flags and a transaction log.
-/

deriving instance DecidableEq for Except

/-- Modelled from the spec: src/error.rs is not among the given sources; the
variants are taken from the error taxonomy of the spec and their uses in
src/lib.rs (`SensorError::InvalidDiscriminant`, `SensorError::NofFifoData`). -/
inductive SensorError where
  | invalidDiscriminant
  | nofFifoData
  deriving DecidableEq, Repr

/-- Modelled from the spec: src/error.rs is not among the given sources; the
variants are taken from the error taxonomy of the spec and their uses in
src/lib.rs (`Mpu6886Error::I2c`, `InvalidChipId`, `SensorError`). -/
inductive Mpu6886Error where
  | i2c
  | invalidChipId (b : Nat)
  | sensorError (e : SensorError)
  deriving DecidableEq, Repr

namespace Bits

/-- Modelled from the spec: src/bits.rs is not among the given sources.
Spec section 4.1: `get_bit(byte, n) -> 0|1`: extract bit n (0=LSB). -/
def get_bit (byte : Nat) (n : Nat) : Nat :=
  (byte >>> n) &&& 1

/-- Modelled from the spec: src/bits.rs is not among the given sources.
Spec section 4.1: `set_bit(byte, n, value)`: set/clear bit n in place. -/
def set_bit (byte : Nat) (n : Nat) (enable : Bool) : Nat :=
  if enable then byte ||| (1 <<< n) else byte &&& (0xff ^^^ (1 <<< n))

/-- Modelled from the spec: src/bits.rs is not among the given sources.
Spec section 4.1 gives `get_bits(byte, start, len)`, right-aligned result;
the bit-block convention of section 4.2 (`CLKSEL` at bit 2, length 3
occupies bits 2..0) fixes `start` as the most significant bit of the block,
so the block occupies bits `start` down to `start+1-len`. -/
def get_bits (byte : Nat) (start_bit len : Nat) : Nat :=
  (byte >>> (start_bit + 1 - len)) &&& ((1 <<< len) - 1)

/-- Modelled from the spec: src/bits.rs is not among the given sources.
Spec section 4.1: `set_bits(byte, start, len, value)` writes the low `len`
bits of `value` at the block, preserving all other bits; same MSB-first
block convention as `get_bits`. -/
def set_bits (byte : Nat) (start_bit len data : Nat) : Nat :=
  let sh := start_bit + 1 - len
  let mask := ((1 <<< len) - 1) <<< sh
  (byte &&& (0xff ^^^ mask)) ||| ((data <<< sh) &&& mask)

end Bits

/-- One transaction seen on the bus: a register write of one data byte, or a
burst read of `len` bytes starting at `reg`. -/
inductive BusTx where
  | write (reg val : Nat)
  | read (reg len : Nat)
  deriving DecidableEq, Repr

/-- Modelled from the spec: the bus capability of section 6 (an external
collaborator, not repository code).  `regs` is the device register file,
`failW`/`failR` say whether a write to / a burst read starting at a given
register fails at the transport level, `log` records successful
transactions. -/
structure Bus where
  regs : Nat → Nat
  failW : Nat → Bool
  failR : Nat → Bool
  log : List BusTx

/-- Modelled from the spec: bus capability `write(address, bytes)`; the
driver only ever writes frames of the form `[reg, byte]`, which the device
interprets as storing `byte` into register `reg`. -/
def Bus.write (b : Bus) (data : List Nat) : Except Unit Bus :=
  match data with
  | [reg, val] =>
      if b.failW reg then .error ()
      else .ok { b with
                  regs := fun r => if r = reg then val else b.regs r,
                  log := b.log ++ [.write reg val] }
  | _ => .error ()

/-- Modelled from the spec: bus capability
`write_read(address, request, response)`; the device serves a burst read of
`len` consecutive registers starting at the requested register. -/
def Bus.writeRead (b : Bus) (req : List Nat) (len : Nat) :
    Except Unit (List Nat × Bus) :=
  match req with
  | [reg] =>
      if b.failR reg then .error ()
      else .ok ((List.range len).map (fun i => b.regs (reg + i)),
                { b with log := b.log ++ [.read reg len] })
  | _ => .error ()

/-- A bus whose transactions all succeed, with the given register file and
an empty log. -/
def okBus (regs : Nat → Nat) : Bus :=
  { regs := regs, failW := fun _ => false, failR := fun _ => false, log := [] }

/-! ### src/config.rs: bandwidth enumerations -/

/-- `AccelBw` from src/config.rs, acceleration filter bandwidth selection. -/
inductive AccelBw where
  | Hz1046
  | Hz218
  | Hz99
  | Hz45
  | Hz21
  | Hz10
  | Hz5
  | Hz420
  deriving DecidableEq, Repr, Fintype

/-- Discriminants of `AccelBw` in src/config.rs; `Bitfield::bits` returns
`self as u8`. -/
def AccelBw.bits : AccelBw → Nat
  | .Hz1046 => 0b1000
  | .Hz218 => 0b0000
  | .Hz99 => 0b0010
  | .Hz45 => 0b0011
  | .Hz21 => 0b0100
  | .Hz10 => 0b0101
  | .Hz5 => 0b0110
  | .Hz420 => 0b0111

/-- `TryFrom<u8> for AccelBw` from src/config.rs. -/
def AccelBw.try_from (value : Nat) : Except SensorError AccelBw :=
  match value with
  | 0b1000 => .ok .Hz1046
  | 0b0000 => .ok .Hz218
  | 0b0010 => .ok .Hz99
  | 0b0011 => .ok .Hz45
  | 0b0100 => .ok .Hz21
  | 0b0101 => .ok .Hz10
  | 0b0110 => .ok .Hz5
  | 0b0111 => .ok .Hz420
  | _ => .error .invalidDiscriminant

/-- `GyroBw` from src/config.rs, gyroscope filter bandwidth selection. -/
inductive GyroBw where
  | Hz8173
  | Hz250
  | Hz176
  | Hz92
  | Hz41
  | Hz20
  | Hz10
  | Hz5
  | Hz3281
  deriving DecidableEq, Repr, Fintype

/-- Discriminants of `GyroBw` in src/config.rs; `Bitfield::bits` returns
`self as u8`. -/
def GyroBw.bits : GyroBw → Nat
  | .Hz8173 => 0b01000
  | .Hz250 => 0b00000
  | .Hz176 => 0b00001
  | .Hz92 => 0b00010
  | .Hz41 => 0b00011
  | .Hz20 => 0b00100
  | .Hz10 => 0b00101
  | .Hz5 => 0b00110
  | .Hz3281 => 0b00111

/-- `TryFrom<u8> for GyroBw` from src/config.rs (note: the match arm for
`Hz8173` is `0b10000`, and there is no arm for `0b00001`/`Hz176`). -/
def GyroBw.try_from (value : Nat) : Except SensorError GyroBw :=
  match value with
  | 0b10000 => .ok .Hz8173
  | 0b00000 => .ok .Hz250
  | 0b00010 => .ok .Hz92
  | 0b00011 => .ok .Hz41
  | 0b00100 => .ok .Hz20
  | 0b00101 => .ok .Hz10
  | 0b00110 => .ok .Hz5
  | 0b00111 => .ok .Hz3281
  | _ => .error .invalidDiscriminant

/-! ### src/device.rs: constants, register catalog, range enumerations -/

/-- `GYRO_SENS` from src/device.rs (131., 65.5, 32.8, 16.4), as exact
rationals. -/
def GYRO_SENS : ℚ × ℚ × ℚ × ℚ := (131, 65.5, 32.8, 16.4)

/-- `ACCEL_SENS` from src/device.rs (16384., 8192., 4096., 2048.). -/
def ACCEL_SENS : ℚ × ℚ × ℚ × ℚ := (16384, 8192, 4096, 2048)

/-- `TEMP_OFFSET` from src/device.rs. -/
def TEMP_OFFSET : ℚ := 25.0

/-- `TEMP_SENSITIVITY` from src/device.rs. -/
def TEMP_SENSITIVITY : ℚ := 326.8

/-- `MOT_THR` from src/device.rs. -/
def MOT_THR : Nat := 0x1f

/-- `MOT_DUR` from src/device.rs. -/
def MOT_DUR : Nat := 0x20

/-- `GYRO_REGX_H` from src/device.rs. -/
def GYRO_REGX_H : Nat := 0x43

/-- `ACC_REGX_H` from src/device.rs. -/
def ACC_REGX_H : Nat := 0x3b

/-- `TEMP_OUT_H` from src/device.rs. -/
def TEMP_OUT_H : Nat := 0x41

/-- `DEFAULT_SLAVE_ADDR` from src/device.rs. -/
def DEFAULT_SLAVE_ADDR : Nat := 0x68

/-- `WHOAMI` from src/device.rs. -/
def WHOAMI : Nat := 0x75

/-- Modelled from the spec: the FIFO register addresses used by
`enable_fifo`/`read_fifo` in src/lib.rs (`FIFO_EN`, `USER_CTRL`,
`FIFO_R_W`) are not defined in the given sources; the values are the ones
of the MPU register map the spec and the source documentation reference. -/
def FIFO_EN : Nat := 0x23

/-- Modelled from the spec: see `FIFO_EN`. -/
def USER_CTRL : Nat := 0x6a

/-- Modelled from the spec: see `FIFO_EN`. -/
def FIFO_R_W : Nat := 0x74

/-- `BitBlock` from src/device.rs: a bit block from bit `bit` down over
`length` bits. -/
structure BitBlock where
  bit : Nat
  length : Nat
  deriving DecidableEq, Repr

/-- `CONFIG::ADDR` (register 26) from src/device.rs. -/
def CONFIG.ADDR : Nat := 0x1a

/-- `CONFIG::FIFO_MODE` from src/device.rs. -/
def CONFIG.FIFO_MODE : Nat := 6

/-- `CONFIG::EXT_SYNC_SET` from src/device.rs. -/
def CONFIG.EXT_SYNC_SET : BitBlock := ⟨5, 3⟩

/-- `CONFIG::DLPF_CFG` from src/device.rs. -/
def CONFIG.DLPF_CFG : BitBlock := ⟨2, 3⟩

/-- `GYRO_CONFIG::ADDR` (register 27) from src/device.rs. -/
def GYRO_CONFIG.ADDR : Nat := 0x1b

/-- `GYRO_CONFIG::FS_SEL` from src/device.rs. -/
def GYRO_CONFIG.FS_SEL : BitBlock := ⟨4, 2⟩

/-- `GYRO_CONFIG::FCHOICE_B` from src/device.rs. -/
def GYRO_CONFIG.FCHOICE_B : BitBlock := ⟨1, 2⟩

/-- `ACCEL_CONFIG::ADDR` (register 28) from src/device.rs. -/
def ACCEL_CONFIG.ADDR : Nat := 0x1c

/-- `ACCEL_CONFIG::FS_SEL` from src/device.rs. -/
def ACCEL_CONFIG.FS_SEL : BitBlock := ⟨4, 2⟩

/-- `INT_STATUS::ADDR` (register 58) from src/device.rs. -/
def INT_STATUS.ADDR : Nat := 0x3a

/-- `INT_STATUS::WOM_X_INT` from src/device.rs: bit number 7. -/
def INT_STATUS.WOM_X_INT : Nat := 7

/-- `INT_STATUS::WOM_Y_INT` from src/device.rs: bit number 6. -/
def INT_STATUS.WOM_Y_INT : Nat := 6

/-- `INT_STATUS::WOM_Z_INT` from src/device.rs: bit number 5. -/
def INT_STATUS.WOM_Z_INT : Nat := 5

/-- `PWR_MGMT_1::ADDR` (register 107) from src/device.rs. -/
def PWR_MGMT_1.ADDR : Nat := 0x6b

/-- `PWR_MGMT_1::SLEEP` from src/device.rs. -/
def PWR_MGMT_1.SLEEP : Nat := 6

/-- `PWR_MGMT_1::TEMP_DIS` from src/device.rs: bit number 3. -/
def PWR_MGMT_1.TEMP_DIS : Nat := 3

/-- `PWR_MGMT_1::CLKSEL` from src/device.rs. -/
def PWR_MGMT_1.CLKSEL : BitBlock := ⟨2, 3⟩

/-- `CLKSEL` from src/device.rs, clock source select values. -/
inductive CLKSEL where
  | OSCILL
  | AUTOPLL1
  | AUTOPLL2
  | AUTOPLL3
  | AUTOPLL4
  | AUTOPLL5
  | OSCILL6
  | STOP
  deriving DecidableEq, Repr, Fintype

/-- Discriminants of `CLKSEL` (`source as u8` in src/lib.rs). -/
def CLKSEL.as_u8 : CLKSEL → Nat
  | .OSCILL => 0
  | .AUTOPLL1 => 1
  | .AUTOPLL2 => 2
  | .AUTOPLL3 => 3
  | .AUTOPLL4 => 4
  | .AUTOPLL5 => 5
  | .OSCILL6 => 6
  | .STOP => 7

/-- `From<u8> for CLKSEL` from src/device.rs. -/
def CLKSEL.from_u8 (clk : Nat) : CLKSEL :=
  match clk with
  | 0 => .OSCILL
  | 1 => .AUTOPLL1
  | 2 => .AUTOPLL2
  | 3 => .AUTOPLL3
  | 4 => .AUTOPLL4
  | 5 => .AUTOPLL5
  | 6 => .OSCILL6
  | 7 => .STOP
  | _ => .AUTOPLL1

/-- `AccelRange` from src/device.rs. -/
inductive AccelRange where
  | G2
  | G4
  | G8
  | G16
  deriving DecidableEq, Repr, Fintype

/-- Discriminants of `AccelRange` (`range as u8` in src/lib.rs). -/
def AccelRange.as_u8 : AccelRange → Nat
  | .G2 => 0
  | .G4 => 1
  | .G8 => 2
  | .G16 => 3

/-- `From<u8> for AccelRange` from src/device.rs. -/
def AccelRange.from_u8 (range : Nat) : AccelRange :=
  match range with
  | 0 => .G2
  | 1 => .G4
  | 2 => .G8
  | 3 => .G16
  | _ => .G2

/-- `AccelRange::sensitivity` from src/device.rs. -/
def AccelRange.sensitivity : AccelRange → ℚ
  | .G2 => ACCEL_SENS.1
  | .G4 => ACCEL_SENS.2.1
  | .G8 => ACCEL_SENS.2.2.1
  | .G16 => ACCEL_SENS.2.2.2

/-- `GyroRange` from src/device.rs. -/
inductive GyroRange where
  | D250
  | D500
  | D1000
  | D2000
  deriving DecidableEq, Repr, Fintype

/-- Discriminants of `GyroRange` (`range as u8` in src/lib.rs). -/
def GyroRange.as_u8 : GyroRange → Nat
  | .D250 => 0
  | .D500 => 1
  | .D1000 => 2
  | .D2000 => 3

/-- `From<u8> for GyroRange` from src/device.rs. -/
def GyroRange.from_u8 (range : Nat) : GyroRange :=
  match range with
  | 0 => .D250
  | 1 => .D500
  | 2 => .D1000
  | 3 => .D2000
  | _ => .D250

/-- `GyroRange::sensitivity` from src/device.rs. -/
def GyroRange.sensitivity : GyroRange → ℚ
  | .D250 => GYRO_SENS.1
  | .D500 => GYRO_SENS.2.1
  | .D1000 => GYRO_SENS.2.2.1
  | .D2000 => GYRO_SENS.2.2.2

/-! ### src/lib.rs: driver state and transaction layer -/

/-- Result triple (the nalgebra 3-vector as used by the driver); named
`Vec3` here because Mathlib already declares a constant of the original
name. -/
structure Vec3 (α : Type) where
  x : α
  y : α
  z : α
  deriving DecidableEq, Repr

/-- `PI` from src/lib.rs, as an exact symbol is not needed by any claim;
the gyro conversion constant `PI_180` is kept abstract-free by modelling
the exact rational driver arithmetic only where claims need it. -/
def GRAVITY : ℚ := 9.806651

/-- `Mpu6886` driver struct from src/lib.rs. -/
structure Mpu6886 where
  i2c : Bus
  slave_addr : Nat
  acc_sensitivity : ℚ
  gyro_sensitivity : ℚ

namespace Mpu6886

/-- `Mpu6886::new` from src/lib.rs: default sensitivities `ACCEL_SENS.0`,
`GYRO_SENS.0`. -/
def new (i2c : Bus) : Mpu6886 :=
  { i2c := i2c, slave_addr := DEFAULT_SLAVE_ADDR,
    acc_sensitivity := ACCEL_SENS.1, gyro_sensitivity := GYRO_SENS.1 }

/-- `write_byte` from src/lib.rs: one bus write of `[reg, byte]`. -/
def write_byte (s : Mpu6886) (reg byte : Nat) :
    Except Mpu6886Error Unit × Mpu6886 :=
  match s.i2c.write [reg, byte] with
  | .ok b => (.ok (), { s with i2c := b })
  | .error _ => (.error .i2c, s)

/-- `read_bytes` from src/lib.rs: one bus write_read with request `[reg]`
and a response buffer of length `len`. -/
def read_bytes (s : Mpu6886) (reg len : Nat) :
    Except Mpu6886Error (List Nat) × Mpu6886 :=
  match s.i2c.writeRead [reg] len with
  | .ok (buf, b) => (.ok buf, { s with i2c := b })
  | .error _ => (.error .i2c, s)

/-- `read_byte` from src/lib.rs. -/
def read_byte (s : Mpu6886) (reg : Nat) : Except Mpu6886Error Nat × Mpu6886 :=
  match s.i2c.writeRead [reg] 1 with
  | .ok (buf, b) => (.ok (buf.getD 0 0), { s with i2c := b })
  | .error _ => (.error .i2c, s)

/-- `write_bit` from src/lib.rs: read the current byte, set/clear bit
`bit_n`, write the byte back. -/
def write_bit (s : Mpu6886) (reg bit_n : Nat) (enable : Bool) :
    Except Mpu6886Error Unit × Mpu6886 :=
  match read_bytes s reg 1 with
  | (.ok buf, s1) => write_byte s1 reg (Bits.set_bit (buf.getD 0 0) bit_n enable)
  | (.error e, s1) => (.error e, s1)

/-- `write_bits` from src/lib.rs: read the current byte, splice `data` into
the block, write the byte back. -/
def write_bits (s : Mpu6886) (reg start_bit len data : Nat) :
    Except Mpu6886Error Unit × Mpu6886 :=
  match read_bytes s reg 1 with
  | (.ok buf, s1) =>
      write_byte s1 reg (Bits.set_bits (buf.getD 0 0) start_bit len data)
  | (.error e, s1) => (.error e, s1)

/-- `read_bit` from src/lib.rs. -/
def read_bit (s : Mpu6886) (reg bit_n : Nat) :
    Except Mpu6886Error Nat × Mpu6886 :=
  match read_bytes s reg 1 with
  | (.ok buf, s1) => (.ok (Bits.get_bit (buf.getD 0 0) bit_n), s1)
  | (.error e, s1) => (.error e, s1)

/-- `read_bits` from src/lib.rs. -/
def read_bits (s : Mpu6886) (reg start_bit len : Nat) :
    Except Mpu6886Error Nat × Mpu6886 :=
  match read_bytes s reg 1 with
  | (.ok buf, s1) => (.ok (Bits.get_bits (buf.getD 0 0) start_bit len), s1)
  | (.error e, s1) => (.error e, s1)

/-! ### src/lib.rs: driver operations the claims are about -/

/-- `get_motion_detected` from src/lib.rs: the mask is the bitwise OR of
the three WoM bit NUMBERS (7, 6, 5), and is passed to `read_bit` as the
bit number argument. -/
def get_motion_detected (s : Mpu6886) : Except Mpu6886Error Bool × Mpu6886 :=
  let mask := INT_STATUS.WOM_X_INT ||| INT_STATUS.WOM_Y_INT ||| INT_STATUS.WOM_Z_INT
  match read_bit s INT_STATUS.ADDR mask with
  | (.ok v, s1) => (.ok (v != 0), s1)
  | (.error e, s1) => (.error e, s1)

/-- `set_gyro_range` from src/lib.rs: write the FS_SEL bits, then update
the cached sensitivity. -/
def set_gyro_range (s : Mpu6886) (range : GyroRange) :
    Except Mpu6886Error Unit × Mpu6886 :=
  match write_bits s GYRO_CONFIG.ADDR GYRO_CONFIG.FS_SEL.bit
      GYRO_CONFIG.FS_SEL.length range.as_u8 with
  | (.ok _, s1) => (.ok (), { s1 with gyro_sensitivity := range.sensitivity })
  | (.error e, s1) => (.error e, s1)

/-- `set_accel_range` from src/lib.rs: write the FS_SEL bits, then update
the cached sensitivity. -/
def set_accel_range (s : Mpu6886) (range : AccelRange) :
    Except Mpu6886Error Unit × Mpu6886 :=
  match write_bits s ACCEL_CONFIG.ADDR ACCEL_CONFIG.FS_SEL.bit
      ACCEL_CONFIG.FS_SEL.length range.as_u8 with
  | (.ok _, s1) => (.ok (), { s1 with acc_sensitivity := range.sensitivity })
  | (.error e, s1) => (.error e, s1)

/-- `set_temp_enabled` from src/lib.rs: writes the NEGATION of `enable`
into the `TEMP_DIS` bit of `PWR_MGMT_1`. -/
def set_temp_enabled (s : Mpu6886) (enable : Bool) :
    Except Mpu6886Error Unit × Mpu6886 :=
  write_bit s PWR_MGMT_1.ADDR PWR_MGMT_1.TEMP_DIS (!enable)

/-- `get_temp_enabled` from src/lib.rs: reports true exactly when the
`TEMP_DIS` bit reads 0. -/
def get_temp_enabled (s : Mpu6886) : Except Mpu6886Error Bool × Mpu6886 :=
  match read_bit s PWR_MGMT_1.ADDR PWR_MGMT_1.TEMP_DIS with
  | (.ok v, s1) => (.ok (v == 0), s1)
  | (.error e, s1) => (.error e, s1)

/-- `set_accel_bw` from src/lib.rs: two raw full-byte writes of
`bw.bits()`, to `CONFIG` then to `GYRO_CONFIG`. -/
def set_accel_bw (s : Mpu6886) (bw : AccelBw) :
    Except Mpu6886Error Unit × Mpu6886 :=
  match write_byte s CONFIG.ADDR bw.bits with
  | (.ok _, s1) =>
      match write_byte s1 GYRO_CONFIG.ADDR bw.bits with
      | (.ok _, s2) => (.ok (), s2)
      | (.error e, s2) => (.error e, s2)
  | (.error e, s1) => (.error e, s1)

/-- `set_gyro_bw` from src/lib.rs: the body is only `Ok(())` (the single
write is commented out in the source). -/
def set_gyro_bw (s : Mpu6886) (_bw : GyroBw) :
    Except Mpu6886Error Unit × Mpu6886 :=
  (.ok (), s)

/-- `read_word_2c` from src/lib.rs: big-endian assembly with the explicit
two's-complement fixup `-((65535 - word) + 1)` for words at or above
0x8000. -/
def read_word_2c (byte : List Nat) : Int :=
  let high : Int := (byte.getD 0 0 : Nat)
  let low : Int := (byte.getD 1 0 : Nat)
  let word : Int := high * 2 ^ 8 + low
  if word ≥ 0x8000 then -((65535 - word) + 1) else word

/-- `read_rot` from src/lib.rs: read 6 bytes, decode the three words
`buf[0..2]`, `buf[2..4]`, `buf[4..6]` (result as exact rationals). -/
def read_rot (s : Mpu6886) (reg : Nat) :
    Except Mpu6886Error (Vec3 ℚ) × Mpu6886 :=
  match read_bytes s reg 6 with
  | (.ok buf, s1) =>
      (.ok ⟨(read_word_2c (buf.take 2) : ℚ),
            (read_word_2c ((buf.drop 2).take 2) : ℚ),
            (read_word_2c ((buf.drop 4).take 2) : ℚ)⟩, s1)
  | (.error e, s1) => (.error e, s1)

/-- `get_acc` from src/lib.rs: `read_rot` at `ACC_REGX_H`, then divide each
component by the cached accel sensitivity. -/
def get_acc (s : Mpu6886) : Except Mpu6886Error (Vec3 ℚ) × Mpu6886 :=
  match read_rot s ACC_REGX_H with
  | (.ok acc, s1) =>
      (.ok ⟨acc.x / s1.acc_sensitivity, acc.y / s1.acc_sensitivity,
            acc.z / s1.acc_sensitivity⟩, s1)
  | (.error e, s1) => (.error e, s1)

/-- `read_fifo` from src/lib.rs: read a fixed 14-byte frame at `FIFO_R_W`;
if the first byte is 255 fail with `NofFifoData`, otherwise decode
accel (bytes 0..6, divided by the cached accel sensitivity), temperature
(bytes 6..8, raw/TEMP_SENSITIVITY + TEMP_OFFSET) and gyro (bytes 8..14,
divided by the cached gyro sensitivity). -/
def read_fifo (s : Mpu6886) :
    Except Mpu6886Error (Vec3 (Vec3 ℚ)) × Mpu6886 :=
  match read_bytes s FIFO_R_W 14 with
  | (.ok buf, s1) =>
      if buf.getD 0 0 ≠ 255 then
        let ax := (read_word_2c (buf.take 2) : ℚ) / s1.acc_sensitivity
        let ay := (read_word_2c ((buf.drop 2).take 2) : ℚ) / s1.acc_sensitivity
        let az := (read_word_2c ((buf.drop 4).take 2) : ℚ) / s1.acc_sensitivity
        let t := (read_word_2c ((buf.drop 6).take 2) : ℚ) / TEMP_SENSITIVITY + TEMP_OFFSET
        let gx := (read_word_2c ((buf.drop 8).take 2) : ℚ) / s1.gyro_sensitivity
        let gy := (read_word_2c ((buf.drop 10).take 2) : ℚ) / s1.gyro_sensitivity
        let gz := (read_word_2c ((buf.drop 12).take 2) : ℚ) / s1.gyro_sensitivity
        (.ok ⟨⟨ax, ay, az⟩, ⟨gx, gy, gz⟩, ⟨t, 0, 0⟩⟩, s1)
      else
        (.error (.sensorError .nofFifoData), s1)
  | (.error e, s1) => (.error e, s1)

end Mpu6886

/-- The 16-bit word the device stores big-endian at `reg` (high byte) and
`reg + 1` (low byte), decoded by `read_word_2c`. -/
def regWord (b : Bus) (reg : Nat) : Int :=
  Mpu6886.read_word_2c [b.regs reg, b.regs (reg + 1)]

/-! ### Helper lemmas shared by several claims -/

set_option maxRecDepth 40000

/-- Bit-level facts about `set_bit`/`get_bit` on bytes, by exhaustive check. -/
theorem set_bit_get_bit_byte : ∀ b, b < 256 → ∀ e : Bool, ∀ n, n < 8 →
    (Bits.get_bit (Bits.set_bit b 3 e) 3 = if e then 1 else 0) ∧
    (n ≠ 3 → Bits.get_bit (Bits.set_bit b 3 e) n = Bits.get_bit b n) := by
  decide

/-- C5 helper: the branch arithmetic of `read_word_2c`. -/
theorem read_word_2c_eq (high low : Nat) (h1 : high < 256) (h2 : low < 256) :
    Mpu6886.read_word_2c [high, low] =
      ((high * 256 + low : Int) + 32768) % 65536 - 32768 := by
  unfold Mpu6886.read_word_2c
  simp only [List.getD_cons_zero, List.getD_cons_succ]
  have h8 : (2 : Int) ^ 8 = 256 := by norm_num
  split <;> omega

/-! ### Claim theorems -/

/-- C1: for each ConfigValue family, decoding the encoding of a variant
returns that variant.  This holds for `AccelBw`, `CLKSEL`, `AccelRange`
and `GyroRange`, but fails for `GyroBw`: the decode arm for `Hz8173` is
`0b10000` while its discriminant is `0b01000`, and the discriminant
`0b00001` of `Hz176` has no decode arm, so both decode to
`InvalidDiscriminant`. -/
theorem configvalue_roundtrip_status :
    (∀ v : AccelBw, AccelBw.try_from v.bits = .ok v) ∧
    (∀ v : CLKSEL, CLKSEL.from_u8 v.as_u8 = v) ∧
    (∀ v : AccelRange, AccelRange.from_u8 v.as_u8 = v) ∧
    (∀ v : GyroRange, GyroRange.from_u8 v.as_u8 = v) ∧
    (∀ v : GyroBw, v ≠ .Hz8173 → v ≠ .Hz176 → GyroBw.try_from v.bits = .ok v) ∧
    GyroBw.try_from GyroBw.Hz8173.bits = .error .invalidDiscriminant ∧
    GyroBw.try_from GyroBw.Hz176.bits = .error .invalidDiscriminant := by
  decide

/-- C2: `get_motion_detected` ORs the three WoM bit NUMBERS (7, 6, 5)
into the value 7 and passes it to `read_bit` as a bit index, so it tests
only bit 7 (`WOM_X_INT`): on an `INT_STATUS` byte with only `WOM_Y_INT`
(0x40) or only `WOM_Z_INT` (0x20) set it returns false, against the claim
that any of the three bits yields true. -/
theorem get_motion_detected_only_tests_bit7 :
    (Mpu6886.get_motion_detected
      (Mpu6886.new (okBus (fun r => if r = INT_STATUS.ADDR then 0x40 else 0)))).1
        = .ok false ∧
    (Mpu6886.get_motion_detected
      (Mpu6886.new (okBus (fun r => if r = INT_STATUS.ADDR then 0x20 else 0)))).1
        = .ok false ∧
    (Mpu6886.get_motion_detected
      (Mpu6886.new (okBus (fun r => if r = INT_STATUS.ADDR then 0x80 else 0)))).1
        = .ok true ∧
    (INT_STATUS.WOM_X_INT ||| INT_STATUS.WOM_Y_INT ||| INT_STATUS.WOM_Z_INT) = 7 := by
  decide

/-- C3: the range setters update the cached sensitivity exactly when the
register write succeeds, and leave it unchanged when the bus transaction
fails; the other cached sensitivity is never touched. -/
theorem set_range_updates_cache_atomically (s : Mpu6886) (ar : AccelRange)
    (gr : GyroRange) :
    ((Mpu6886.set_accel_range s ar).2.acc_sensitivity =
      if (Mpu6886.set_accel_range s ar).1 = .ok () then ar.sensitivity
      else s.acc_sensitivity) ∧
    ((Mpu6886.set_gyro_range s gr).2.gyro_sensitivity =
      if (Mpu6886.set_gyro_range s gr).1 = .ok () then gr.sensitivity
      else s.gyro_sensitivity) ∧
    (Mpu6886.set_accel_range s ar).2.gyro_sensitivity = s.gyro_sensitivity ∧
    (Mpu6886.set_gyro_range s gr).2.acc_sensitivity = s.acc_sensitivity := by
  refine ⟨?_, ?_, ?_, ?_⟩
  · unfold Mpu6886.set_accel_range Mpu6886.write_bits Mpu6886.read_bytes
      Mpu6886.write_byte Bus.writeRead Bus.write
    cases hR : s.i2c.failR ACCEL_CONFIG.ADDR <;>
      cases hW : s.i2c.failW ACCEL_CONFIG.ADDR <;> simp [hR, hW]
  · unfold Mpu6886.set_gyro_range Mpu6886.write_bits Mpu6886.read_bytes
      Mpu6886.write_byte Bus.writeRead Bus.write
    cases hR : s.i2c.failR GYRO_CONFIG.ADDR <;>
      cases hW : s.i2c.failW GYRO_CONFIG.ADDR <;> simp [hR, hW]
  · unfold Mpu6886.set_accel_range Mpu6886.write_bits Mpu6886.read_bytes
      Mpu6886.write_byte Bus.writeRead Bus.write
    cases hR : s.i2c.failR ACCEL_CONFIG.ADDR <;>
      cases hW : s.i2c.failW ACCEL_CONFIG.ADDR <;> simp [hR, hW]
  · unfold Mpu6886.set_gyro_range Mpu6886.write_bits Mpu6886.read_bytes
      Mpu6886.write_byte Bus.writeRead Bus.write
    cases hR : s.i2c.failR GYRO_CONFIG.ADDR <;>
      cases hW : s.i2c.failW GYRO_CONFIG.ADDR <;> simp [hR, hW]

/-- C4: `set_accel_bw` issues exactly two full-byte writes of `bw.bits()`
to `CONFIG` (0x1A) and `GYRO_CONFIG` (0x1B), with no prior read, and both
registers end up holding the raw pattern (every other bit field in them is
overwritten). -/
theorem set_accel_bw_two_raw_writes (s : Mpu6886) (bw : AccelBw)
    (hW1 : s.i2c.failW CONFIG.ADDR = false)
    (hW2 : s.i2c.failW GYRO_CONFIG.ADDR = false) :
    (Mpu6886.set_accel_bw s bw).1 = .ok () ∧
    (Mpu6886.set_accel_bw s bw).2.i2c.log =
      s.i2c.log ++ [.write CONFIG.ADDR bw.bits, .write GYRO_CONFIG.ADDR bw.bits] ∧
    (Mpu6886.set_accel_bw s bw).2.i2c.regs CONFIG.ADDR = bw.bits ∧
    (Mpu6886.set_accel_bw s bw).2.i2c.regs GYRO_CONFIG.ADDR = bw.bits := by
  unfold Mpu6886.set_accel_bw Mpu6886.write_byte Bus.write
  simp only [CONFIG.ADDR, GYRO_CONFIG.ADDR] at hW1 hW2 ⊢
  simp [hW1, hW2]

/-- C4 witness. -/
theorem set_accel_bw_two_raw_writes_witness :
    (Mpu6886.set_accel_bw (Mpu6886.new (okBus (fun _ => 0xff))) AccelBw.Hz99).2.i2c.log =
      [.write CONFIG.ADDR AccelBw.Hz99.bits, .write GYRO_CONFIG.ADDR AccelBw.Hz99.bits] := by
  have h := (set_accel_bw_two_raw_writes
    (Mpu6886.new (okBus (fun _ => 0xff))) AccelBw.Hz99 rfl rfl).2.1
  rw [h]
  rfl

/-- C5: `read_word_2c` assembles two bytes big-endian into the standard
signed 16-bit two's-complement value; in particular `[0x80,0x00] ↦ -32768`,
`[0x7F,0xFF] ↦ 32767`, `[0x00,0x00] ↦ 0`. -/
theorem read_word_2c_signed16 (high low : Nat) (h1 : high < 256) (h2 : low < 256) :
    Mpu6886.read_word_2c [0x80, 0x00] = -32768 ∧
    Mpu6886.read_word_2c [0x7f, 0xff] = 32767 ∧
    Mpu6886.read_word_2c [0x00, 0x00] = 0 ∧
    Mpu6886.read_word_2c [high, low] =
      ((high * 256 + low : Int) + 32768) % 65536 - 32768 :=
  ⟨by decide, by decide, by decide, read_word_2c_eq high low h1 h2⟩

/-- C5 witness. -/
theorem read_word_2c_signed16_witness :
    Mpu6886.read_word_2c [0x80, 0x00] = -32768 ∧
    Mpu6886.read_word_2c [0x80, 0x00] =
      ((0x80 * 256 + 0x00 : Int) + 32768) % 65536 - 32768 :=
  ⟨(read_word_2c_signed16 0x80 0x00 (by decide) (by decide)).1,
   (read_word_2c_signed16 0x80 0x00 (by decide) (by decide)).2.2.2⟩

/-- Accelerometer register fixture: raw X word 0x2000 = 8192, Y = Z = 0. -/
def accFixture : Nat → Nat := fun r => if r = ACC_REGX_H then 0x20 else 0

/-- C6: `read_fifo` on a frame whose first byte is 255 fails with
`NofFifoData`; on any other first byte it returns the accel triple
(bytes 0..6 over the cached accel sensitivity), the gyro triple
(bytes 8..14 over the cached gyro sensitivity) and the temperature
(bytes 6..8 as raw/326.8 + 25). -/
theorem read_fifo_frame (s : Mpu6886) (hR : s.i2c.failR FIFO_R_W = false) :
    (s.i2c.regs FIFO_R_W = 255 →
      (Mpu6886.read_fifo s).1 = .error (.sensorError .nofFifoData)) ∧
    (s.i2c.regs FIFO_R_W ≠ 255 →
      (Mpu6886.read_fifo s).1 = .ok
        ⟨⟨(regWord s.i2c FIFO_R_W : ℚ) / s.acc_sensitivity,
          (regWord s.i2c (FIFO_R_W + 2) : ℚ) / s.acc_sensitivity,
          (regWord s.i2c (FIFO_R_W + 4) : ℚ) / s.acc_sensitivity⟩,
         ⟨(regWord s.i2c (FIFO_R_W + 8) : ℚ) / s.gyro_sensitivity,
          (regWord s.i2c (FIFO_R_W + 10) : ℚ) / s.gyro_sensitivity,
          (regWord s.i2c (FIFO_R_W + 12) : ℚ) / s.gyro_sensitivity⟩,
         ⟨(regWord s.i2c (FIFO_R_W + 6) : ℚ) / TEMP_SENSITIVITY + TEMP_OFFSET,
          0, 0⟩⟩) := by
  have hrange : List.range 14 = [0, 1, 2, 3, 4, 5, 6, 7, 8, 9, 10, 11, 12, 13] := rfl
  unfold Mpu6886.read_fifo Mpu6886.read_bytes Bus.writeRead regWord
  simp only [FIFO_R_W] at hR ⊢
  constructor
  · intro h
    simp [hR, hrange, h]
  · intro h
    simp [hR, hrange, h]

/-- C6 witness: an all-zero frame decodes to zero vectors and 25 °C. -/
theorem read_fifo_frame_witness :
    (Mpu6886.read_fifo (Mpu6886.new (okBus (fun _ => 0)))).1 =
      .ok ⟨⟨0, 0, 0⟩, ⟨0, 0, 0⟩, ⟨25, 0, 0⟩⟩ := by
  have h := (read_fifo_frame (Mpu6886.new (okBus (fun _ => 0))) rfl).2 (by decide)
  rw [h]
  norm_num [regWord, Mpu6886.read_word_2c, Mpu6886.new, okBus,
    TEMP_SENSITIVITY, TEMP_OFFSET]

/-- C8: `get_acc` divides each raw word by the cached accel sensitivity;
the four ranges cache the divisors 16384, 8192, 4096, 2048; and after
`set_accel_range G4` a raw triplet (8192, 0, 0) reads as (1, 0, 0) g. -/
theorem get_acc_scales_by_cached_sensitivity (s : Mpu6886)
    (hR : s.i2c.failR ACC_REGX_H = false) :
    (Mpu6886.get_acc s).1 = .ok
      ⟨(regWord s.i2c ACC_REGX_H : ℚ) / s.acc_sensitivity,
       (regWord s.i2c (ACC_REGX_H + 2) : ℚ) / s.acc_sensitivity,
       (regWord s.i2c (ACC_REGX_H + 4) : ℚ) / s.acc_sensitivity⟩ ∧
    AccelRange.G2.sensitivity = 16384 ∧ AccelRange.G4.sensitivity = 8192 ∧
    AccelRange.G8.sensitivity = 4096 ∧ AccelRange.G16.sensitivity = 2048 ∧
    (Mpu6886.get_acc ((Mpu6886.set_accel_range (Mpu6886.new (okBus accFixture))
        AccelRange.G4).2)).1 = .ok ⟨1, 0, 0⟩ := by
  have hrange : List.range 6 = [0, 1, 2, 3, 4, 5] := rfl
  refine ⟨?_, by norm_num [AccelRange.sensitivity, ACCEL_SENS],
      by norm_num [AccelRange.sensitivity, ACCEL_SENS],
      by norm_num [AccelRange.sensitivity, ACCEL_SENS],
      by norm_num [AccelRange.sensitivity, ACCEL_SENS], ?_⟩
  · unfold Mpu6886.get_acc Mpu6886.read_rot Mpu6886.read_bytes Bus.writeRead regWord
    simp only [ACC_REGX_H] at hR ⊢
    simp [hR, hrange]
  · norm_num [Mpu6886.get_acc, Mpu6886.read_rot, Mpu6886.read_bytes,
      Mpu6886.set_accel_range, Mpu6886.write_bits, Mpu6886.write_byte,
      Bus.writeRead, Bus.write, Mpu6886.new, okBus, accFixture, hrange,
      Mpu6886.read_word_2c, Bits.set_bits, ACC_REGX_H, ACCEL_CONFIG.ADDR,
      AccelRange.sensitivity, AccelRange.as_u8, ACCEL_SENS, ACCEL_CONFIG.FS_SEL]

/-- C8 witness: on the fixture with the default ±2g sensitivity the X
component reads 8192/16384 = 1/2 g. -/
theorem get_acc_scales_witness :
    (Mpu6886.get_acc (Mpu6886.new (okBus accFixture))).1 =
      .ok ⟨1 / 2, 0, 0⟩ := by
  have h := (get_acc_scales_by_cached_sensitivity
    (Mpu6886.new (okBus accFixture)) rfl).1
  rw [h]
  norm_num [regWord, Mpu6886.read_word_2c, Mpu6886.new, okBus, accFixture,
    ACC_REGX_H, ACCEL_SENS]

/-- C7: every u8 pattern outside the decode table yields
`InvalidDiscriminant` for both bandwidth families. -/
theorem bandwidth_decode_rejects_unknown (v : Nat) (hv : v < 256) :
    (v ∉ ([0b1000, 0b0000, 0b0010, 0b0011, 0b0100, 0b0101, 0b0110,
           0b0111] : List Nat) →
      AccelBw.try_from v = .error .invalidDiscriminant) ∧
    (v ∉ ([0b10000, 0b00000, 0b00010, 0b00011, 0b00100, 0b00101, 0b00110,
           0b00111] : List Nat) →
      GyroBw.try_from v = .error .invalidDiscriminant) := by
  revert hv
  revert v
  decide

/-- C7 witness: 0b0001 is in neither table and is rejected by both. -/
theorem bandwidth_decode_rejects_unknown_witness :
    AccelBw.try_from 1 = .error .invalidDiscriminant ∧
    GyroBw.try_from 1 = .error .invalidDiscriminant :=
  ⟨(bandwidth_decode_rejects_unknown 1 (by decide)).1 (by decide),
   (bandwidth_decode_rejects_unknown 1 (by decide)).2 (by decide)⟩

/-- C9: `set_temp_enabled e` writes `!e` into bit 3 (`TEMP_DIS`) of
`PWR_MGMT_1`, leaving the other bits of the byte unchanged, and
`get_temp_enabled` afterwards reports `e` (true exactly when the bit
reads 0). -/
theorem temp_enabled_accessors_inverted (s : Mpu6886) (e : Bool)
    (hR : s.i2c.failR PWR_MGMT_1.ADDR = false)
    (hW : s.i2c.failW PWR_MGMT_1.ADDR = false)
    (hb : s.i2c.regs PWR_MGMT_1.ADDR < 256) :
    (Mpu6886.set_temp_enabled s e).1 = .ok () ∧
    (Mpu6886.set_temp_enabled s e).2.i2c.regs PWR_MGMT_1.ADDR =
      Bits.set_bit (s.i2c.regs PWR_MGMT_1.ADDR) PWR_MGMT_1.TEMP_DIS (!e) ∧
    Bits.get_bit ((Mpu6886.set_temp_enabled s e).2.i2c.regs PWR_MGMT_1.ADDR)
      PWR_MGMT_1.TEMP_DIS = (if e then 0 else 1) ∧
    (Mpu6886.get_temp_enabled (Mpu6886.set_temp_enabled s e).2).1 = .ok e ∧
    (∀ n, n < 8 → n ≠ PWR_MGMT_1.TEMP_DIS →
      Bits.get_bit ((Mpu6886.set_temp_enabled s e).2.i2c.regs PWR_MGMT_1.ADDR) n =
      Bits.get_bit (s.i2c.regs PWR_MGMT_1.ADDR) n) := by
  have hok : (Mpu6886.set_temp_enabled s e).1 = .ok () := by
    unfold Mpu6886.set_temp_enabled Mpu6886.write_bit Mpu6886.read_bytes
      Mpu6886.write_byte Bus.writeRead Bus.write
    simp [hR, hW]
  have hset : (Mpu6886.set_temp_enabled s e).2.i2c.regs PWR_MGMT_1.ADDR =
      Bits.set_bit (s.i2c.regs PWR_MGMT_1.ADDR) PWR_MGMT_1.TEMP_DIS (!e) := by
    unfold Mpu6886.set_temp_enabled Mpu6886.write_bit Mpu6886.read_bytes
      Mpu6886.write_byte Bus.writeRead Bus.write
    simp [hR, hW]
  have hget : (Mpu6886.get_temp_enabled (Mpu6886.set_temp_enabled s e).2).1 =
      .ok (Bits.get_bit ((Mpu6886.set_temp_enabled s e).2.i2c.regs
            PWR_MGMT_1.ADDR) PWR_MGMT_1.TEMP_DIS == 0) := by
    unfold Mpu6886.get_temp_enabled Mpu6886.read_bit Mpu6886.set_temp_enabled
      Mpu6886.write_bit Mpu6886.read_bytes Mpu6886.write_byte Bus.writeRead
      Bus.write
    simp [hR, hW]
  refine ⟨hok, hset, ?_, ?_, ?_⟩
  · rw [hset]
    simp only [PWR_MGMT_1.TEMP_DIS]
    rw [(set_bit_get_bit_byte _ hb (!e) 0 (by norm_num)).1]
    cases e <;> rfl
  · rw [hget, hset]
    simp only [PWR_MGMT_1.TEMP_DIS]
    rw [(set_bit_get_bit_byte _ hb (!e) 0 (by norm_num)).1]
    cases e <;> rfl
  · intro n hn hne
    rw [hset]
    simp only [PWR_MGMT_1.TEMP_DIS] at hne ⊢
    exact (set_bit_get_bit_byte _ hb (!e) n hn).2 hne

/-- C9 witness: starting from a byte 0xFF, enabling temperature clears
bit 3 and the getter reports true. -/
theorem temp_enabled_accessors_witness :
    (Mpu6886.get_temp_enabled
      (Mpu6886.set_temp_enabled (Mpu6886.new (okBus (fun _ => 0xff)))
        true).2).1 = .ok true :=
  (temp_enabled_accessors_inverted (Mpu6886.new (okBus (fun _ => 0xff)))
    true rfl rfl (by decide)).2.2.2.1

/-- C10: `set_gyro_bw` performs no bus transaction (no entry is added to
the log), leaves the driver state unchanged, and returns `Ok(())`. -/
theorem set_gyro_bw_noop (s : Mpu6886) (bw : GyroBw) :
    Mpu6886.set_gyro_bw s bw = (.ok (), s) := rfl
